import Mathlib

/-!
Shallow embedding of `app.py` from the `web-notifix` repository: a small
Flask application managing `users` and `notifications` tables behind
session-based access control. Database tables are modelled as lists of
rows, the ORM point queries as `List.find?`, and each request handler as a
pure function from the database, the session and the parsed request to a
result record (response, new database, new session, flash messages).
-/

namespace Notifix

/-- A row of the `users` table (`class User` in `app.py`). -/
structure User where
  id : Nat
  username : String
  password : String
  fullname : String
  description : String
  role : String
deriving DecidableEq

/-- A row of the `notifications` table (`class Notification` in `app.py`). -/
structure Notification where
  id : Nat
  content : String
  note : String
deriving DecidableEq

/-- The database state: the two tables the application touches. -/
structure DB where
  users : List User
  notifications : List Notification
deriving DecidableEq

/-- The Flask session cookie contents used by `app.py`: `user_id`,
`username` and `role`, each possibly absent. -/
structure SessionState where
  user_id : Option Nat
  username : Option String
  role : Option String
deriving DecidableEq

/-- HTTP method of a request, for handlers registered with both GET and POST. -/
inductive Method where
  | GET
  | POST
deriving DecidableEq

/-- The observable outcome of a request handler. -/
inductive Response where
  | redirect (endpoint : String)
  | render (template : String)
  | notFound
deriving DecidableEq

/-- A flash message: text and category (as in Flask's `flash(msg, category)`). -/
abbrev Flash := String × String

/-- Python's `str.strip()`: remove leading and trailing whitespace. Stated
over the underlying character list so that it evaluates by `decide`. -/
def pyStrip (s : String) : String :=
  ⟨((s.data.dropWhile Char.isWhitespace).reverse.dropWhile Char.isWhitespace).reverse⟩

/-- Everything a handler produces: the HTTP-level response, the database
and session after the request, and the flash messages emitted. -/
structure RequestResult where
  response : Response
  db : DB
  session : SessionState
  flashes : List Flash
deriving DecidableEq

/-- A request handler specialised to its route parameters. -/
abbrev Handler := DB → SessionState → RequestResult

/-- `get_user_by_username` in `app.py`:
`select(User).where(User.username == username)` read with `s.scalar`. -/
def get_user_by_username (db : DB) (username : String) : Option User :=
  db.users.find? (fun u => u.username == username)

/-- `get_user_by_id` in `app.py`:
`select(User).where(User.id == user_id)` read with `s.scalar`. -/
def get_user_by_id (db : DB) (user_id : Nat) : Option User :=
  db.users.find? (fun u => u.id == user_id)

/-- Redirect to the login page, leaving database, session and flashes alone. -/
def loginRedirect (db : DB) (sess : SessionState) : RequestResult :=
  { response := .redirect "login", db := db, session := sess, flashes := [] }

/-- The denial outcome of `admin_required`: flash a danger notice and
redirect to `index` (which itself redirects to the notification list). -/
def accessDenied (db : DB) (sess : SessionState) : RequestResult :=
  { response := .redirect "index", db := db, session := sess,
    flashes := [("Bạn không có quyền truy cập (cần admin).", "danger")] }

/-- A terminal 404 (`abort(404)` in `app.py`), leaving all state alone. -/
def notFoundResult (db : DB) (sess : SessionState) : RequestResult :=
  { response := .notFound, db := db, session := sess, flashes := [] }

/-- The `login_required` decorator: if the session has no `user_id`,
redirect to login; otherwise run the wrapped handler. -/
def login_required (f : Handler) : Handler := fun db sess =>
  match sess.user_id with
  | none => loginRedirect db sess
  | some _ => f db sess

/-- The `admin_required` decorator: if the session has no `user_id`,
redirect to login; otherwise re-fetch the user by id and, when the row is
missing or its stored role is not `admin`, flash the denial notice and
redirect to `index`; otherwise run the wrapped handler
(`if not user or user.role != 'admin'` in `app.py`). -/
def admin_required (f : Handler) : Handler := fun db sess =>
  match sess.user_id with
  | none => loginRedirect db sess
  | some uid =>
    match get_user_by_id db uid with
    | none => accessDenied db sess
    | some user =>
      if user.role = "admin" then f db sess else accessDenied db sess

/-- The allow/deny decision of the admin gate, as a Boolean: whether the
wrapped handler runs. Derived from `admin_required` for stating the
freshness property; `admin_required_characterisation` ties them together. -/
def adminGateAllows (db : DB) (sess : SessionState) : Bool :=
  match sess.user_id with
  | none => false
  | some uid =>
    match get_user_by_id db uid with
    | none => false
    | some user => decide (user.role = "admin")

/-- Parsed form data of the login page: `request.form.get` yields `none`
for an absent field. -/
structure LoginForm where
  username : Option String
  password : Option String
deriving DecidableEq

/-- The generic login failure flash: the same message whether the username
was unknown or the password wrong. -/
def loginFailFlash : Flash := ("Sai username hoặc password.", "danger")

/-- The `login` route handler of `app.py`. On POST: trim the submitted
username, look the user up, and on an exact plaintext password match store
`user_id`, `username`, `role` in the session and redirect to `index`;
otherwise flash the generic failure message and re-render the login page. -/
def login (method : Method) (form : LoginForm) : Handler := fun db sess =>
  match method with
  | .GET => { response := .render "login.html", db := db, session := sess, flashes := [] }
  | .POST =>
    match get_user_by_username db (pyStrip (form.username.getD "")) with
    | some user =>
      if form.password.getD "" = user.password then
        { response := .redirect "index", db := db,
          session := { user_id := some user.id, username := some user.username,
                       role := some user.role },
          flashes := [("Đăng nhập thành công.", "success")] }
      else
        { response := .render "login.html", db := db, session := sess,
          flashes := [loginFailFlash] }
    | none =>
      { response := .render "login.html", db := db, session := sess,
        flashes := [loginFailFlash] }

/-- The `logout` route: clear the session and redirect to login. -/
def logout : Handler := fun db _ =>
  { response := .redirect "login", db := db,
    session := { user_id := none, username := none, role := none },
    flashes := [("Đã đăng xuất.", "info")] }

/-- The `index` route body: redirect to the notification list. -/
def index : Handler := fun db sess =>
  { response := .redirect "notifications", db := db, session := sess, flashes := [] }

/-- Insert a notification into a list kept in descending order of `id`. -/
def insertDescById (n : Notification) : List Notification → List Notification
  | [] => [n]
  | m :: ms => if m.id ≤ n.id then n :: m :: ms else m :: insertDescById n ms

/-- Sort notifications by `id` descending: the embedding of
`select(Notification).order_by(Notification.id.desc())`. -/
def sortDescById (l : List Notification) : List Notification :=
  l.foldr insertDescById []

/-- The row list returned by the `notifications` list route. -/
def notificationsQuery (db : DB) : List Notification :=
  sortDescById db.notifications

/-- The `notifications` list route body: render all notifications ordered
by `id` descending. The rendered row list is returned alongside. -/
def notificationsList (db : DB) (sess : SessionState) : RequestResult × List Notification :=
  ({ response := .render "notifications.html", db := db, session := sess, flashes := [] },
   notificationsQuery db)

/-- The `notification_detail` route body: 404 when no row has the id. -/
def notification_detail (nid : Nat) : Handler := fun db sess =>
  match db.notifications.find? (fun n => n.id == nid) with
  | none => notFoundResult db sess
  | some _ =>
    { response := .render "notification_detail.html", db := db, session := sess, flashes := [] }

/-- Parsed form data of the notification add/edit pages. -/
structure NotificationForm where
  content : Option String
  note : Option String
deriving DecidableEq

/-- Fresh primary key for an inserted notification (autoincrement model). -/
def freshNotificationId (db : DB) : Nat :=
  (db.notifications.map Notification.id).foldr max 0 + 1

/-- The `notification_add` route body: on POST, insert a row with the
trimmed `content` and `note` and redirect to the list. -/
def notification_add (method : Method) (form : NotificationForm) : Handler := fun db sess =>
  match method with
  | .GET =>
    { response := .render "notification_form.html", db := db, session := sess, flashes := [] }
  | .POST =>
    { response := .redirect "notifications",
      db := { db with
              notifications := db.notifications ++
                [{ id := freshNotificationId db, content := pyStrip (form.content.getD ""),
                   note := pyStrip (form.note.getD "") }] },
      session := sess,
      flashes := [("Thông báo đã được thêm.", "success")] }

/-- The `notification_edit` route body: load by id (404 when absent, on
GET and POST alike); on POST overwrite `content` and `note` with the
trimmed submissions and redirect to the list. -/
def notification_edit (method : Method) (nid : Nat) (form : NotificationForm) : Handler :=
  fun db sess =>
  match db.notifications.find? (fun n => n.id == nid) with
  | none => notFoundResult db sess
  | some n =>
    match method with
    | .GET =>
      { response := .render "notification_form.html", db := db, session := sess, flashes := [] }
    | .POST =>
      let n' : Notification :=
        { n with content := pyStrip (form.content.getD ""), note := pyStrip (form.note.getD "") }
      { response := .redirect "notifications",
        db := { db with
                notifications := db.notifications.map (fun m => if m.id == nid then n' else m) },
        session := sess,
        flashes := [("Thông báo đã được cập nhật.", "success")] }

/-- The `notification_delete` route body (POST-only): load by id (404 when
absent), delete the row, redirect to the list with a warning flash. -/
def notification_delete (nid : Nat) : Handler := fun db sess =>
  match db.notifications.find? (fun n => n.id == nid) with
  | none => notFoundResult db sess
  | some _ =>
    { response := .redirect "notifications",
      db := { db with notifications := db.notifications.filter (fun m => !(m.id == nid)) },
      session := sess,
      flashes := [("Thông báo đã bị xóa.", "warning")] }

/-- The `users` list route body: render all users ordered by ascending id.
Only the fact that it mutates nothing matters for the claims; the row
ordering of this admin page is not a claim, so the raw table is rendered. -/
def usersList : Handler := fun db sess =>
  { response := .render "users.html", db := db, session := sess, flashes := [] }

/-- The `user_detail` route body: 404 when no row has the id. -/
def user_detail (uid : Nat) : Handler := fun db sess =>
  match db.users.find? (fun u => u.id == uid) with
  | none => notFoundResult db sess
  | some _ =>
    { response := .render "user_detail.html", db := db, session := sess, flashes := [] }

/-- Parsed form data of the user add/edit pages. -/
structure UserForm where
  username : Option String
  password : Option String
  fullname : Option String
  description : Option String
  role : Option String
deriving DecidableEq

/-- Fresh primary key for an inserted user (autoincrement model). -/
def freshUserId (db : DB) : Nat :=
  (db.users.map User.id).foldr max 0 + 1

/-- The `user_add` route body: on POST, parse the fields (`username`,
`fullname`, `description` trimmed; `password` raw; `role` defaulting to
`"user"` when absent), pre-check username uniqueness — on conflict flash
an error and re-render the form without inserting — otherwise insert the
row and redirect to the user list. -/
def user_add (method : Method) (form : UserForm) : Handler := fun db sess =>
  match method with
  | .GET => { response := .render "user_form.html", db := db, session := sess, flashes := [] }
  | .POST =>
    match db.users.find? (fun u => u.username == pyStrip (form.username.getD "")) with
    | some _ =>
      { response := .render "user_form.html", db := db, session := sess,
        flashes := [("Username đã tồn tại.", "danger")] }
    | none =>
      { response := .redirect "users",
        db := { db with
                users := db.users ++
                  [{ id := freshUserId db, username := pyStrip (form.username.getD ""),
                     password := form.password.getD "",
                     fullname := pyStrip (form.fullname.getD ""),
                     description := pyStrip (form.description.getD ""),
                     role := form.role.getD "user" }] },
        session := sess,
        flashes := [("Người dùng đã được thêm.", "success")] }

/-- The row stored by a POST to `user_edit` for current row `u` and form
data `form`: `username`, `fullname`, `description` trimmed and
overwritten, `role` overwritten (defaulting to `"user"` when absent), and
`password` overwritten only when the raw submission is non-empty
(`if new_password:` in `app.py`). -/
def editedUser (u : User) (form : UserForm) : User :=
  { u with
    username := pyStrip (form.username.getD ""),
    password := if form.password.getD "" = "" then u.password else form.password.getD "",
    fullname := pyStrip (form.fullname.getD ""),
    description := pyStrip (form.description.getD ""),
    role := form.role.getD "user" }

/-- The `user_edit` route body: load by id (404 when absent, on GET and
POST alike); on POST store `editedUser` and redirect to the user list. -/
def user_edit (method : Method) (uid : Nat) (form : UserForm) : Handler := fun db sess =>
  match db.users.find? (fun u => u.id == uid) with
  | none => notFoundResult db sess
  | some u =>
    match method with
    | .GET => { response := .render "user_form.html", db := db, session := sess, flashes := [] }
    | .POST =>
      { response := .redirect "users",
        db := { db with
                users := db.users.map (fun x => if x.id == uid then editedUser u form else x) },
        session := sess,
        flashes := [("Người dùng đã được cập nhật.", "success")] }

/-- The `user_delete` route body (POST-only): first the self-deletion
guard (`session.get('user_id') == user_id`) — on a match flash an error
and redirect to the user list without touching the store; otherwise load
by id (404 when absent), delete the row, redirect with a warning flash. -/
def user_delete (uid : Nat) : Handler := fun db sess =>
  if sess.user_id = some uid then
    { response := .redirect "users", db := db, session := sess,
      flashes := [("Bạn không thể xóa chính mình.", "danger")] }
  else
    match db.users.find? (fun u => u.id == uid) with
    | none => notFoundResult db sess
    | some _ =>
      { response := .redirect "users",
        db := { db with users := db.users.filter (fun u => !(u.id == uid)) },
        session := sess,
        flashes := [("Người dùng đã bị xóa.", "warning")] }

/-- The full `/notifications/<id>` route: detail behind `login_required`. -/
def notification_detail_route (nid : Nat) : Handler :=
  login_required (notification_detail nid)

/-- The full `/notifications/add` route, behind `admin_required`. -/
def notification_add_route (method : Method) (form : NotificationForm) : Handler :=
  admin_required (notification_add method form)

/-- The full `/notifications/edit/<id>` route, behind `admin_required`. -/
def notification_edit_route (method : Method) (nid : Nat) (form : NotificationForm) : Handler :=
  admin_required (notification_edit method nid form)

/-- The full `/notifications/delete/<id>` route, behind `admin_required`. -/
def notification_delete_route (nid : Nat) : Handler :=
  admin_required (notification_delete nid)

/-- The full `/users` route, behind `admin_required`. -/
def users_route : Handler :=
  admin_required usersList

/-- The full `/users/<id>` route: detail behind `login_required`. -/
def user_detail_route (uid : Nat) : Handler :=
  login_required (user_detail uid)

/-- The full `/users/add` route, behind `admin_required`. -/
def user_add_route (method : Method) (form : UserForm) : Handler :=
  admin_required (user_add method form)

/-- The full `/users/edit/<id>` route, behind `admin_required`. -/
def user_edit_route (method : Method) (uid : Nat) (form : UserForm) : Handler :=
  admin_required (user_edit method uid form)

/-- The full `/users/delete/<id>` route, behind `admin_required`. -/
def user_delete_route (uid : Nat) : Handler :=
  admin_required (user_delete uid)

/-! Concrete fixtures used to instantiate the theorems below. -/

/-- A concrete admin account. -/
def aliceAdmin : User :=
  { id := 1, username := "alice", password := "pw1", fullname := "Alice A",
    description := "", role := "admin" }

/-- A concrete non-admin account. -/
def bobUser : User :=
  { id := 2, username := "bob", password := "pw2", fullname := "Bob B",
    description := "", role := "user" }

/-- A concrete database: two users, three notifications inserted with ids 1, 2, 3. -/
def dbMain : DB :=
  { users := [aliceAdmin, bobUser],
    notifications := [{ id := 1, content := "one", note := "n1" },
                      { id := 2, content := "two", note := "n2" },
                      { id := 3, content := "three", note := "n3" }] }

/-- The same database after Alice's stored role was downgraded to `user`. -/
def dbDowngraded : DB :=
  { users := [{ aliceAdmin with role := "user" }, bobUser],
    notifications := dbMain.notifications }

/-- An empty (logged-out) session. -/
def sessNone : SessionState := { user_id := none, username := none, role := none }

/-- A concrete user-edit submission with an empty password field. -/
def uFormEmptyPw : UserForm :=
  { username := some "bobby", password := some "", fullname := some "Bob Builder",
    description := some "desc", role := some "user" }

/-- A concrete user submission with no role field. -/
def uFormNoRole : UserForm :=
  { username := some "carol", password := some "pw3", fullname := some "Carol C",
    description := none, role := none }

/-- A concrete notification submission. -/
def nFormX : NotificationForm := { content := some "X", note := some "Y" }

/-- Alice's session as established by a successful login. -/
def sessAlice : SessionState := { user_id := some 1, username := some "alice", role := some "admin" }

/-- Bob's session as established by a successful login. -/
def sessBob : SessionState := { user_id := some 2, username := some "bob", role := some "user" }

/-- A session whose `user_id` has no row in `dbMain` (account deleted mid-session). -/
def sessGhost : SessionState := { user_id := some 99, username := some "ghost", role := some "admin" }

/-! Helper lemmas about the list-based point queries. -/

/-- With pairwise-distinct usernames (the schema's uniqueness constraint),
the username point query finds exactly the member row carrying that name. -/
theorem find?_username_eq_of_nodup (l : List User) (q : String)
    (hn : (l.map User.username).Nodup) (u : User) (hu : u ∈ l) (hq : u.username = q) :
    l.find? (fun x => x.username == q) = some u := by
  induction l with
  | nil => cases hu
  | cons a t ih =>
    rw [List.map_cons, List.nodup_cons] at hn
    rcases List.mem_cons.mp hu with rfl | hmem
    · exact List.find?_cons_of_pos t (by simp [hq])
    · have hne : (a.username == q) = false := by
        apply beq_eq_false_iff_ne.mpr
        intro he
        exact hn.1 (he ▸ hq ▸ List.mem_map_of_mem User.username hmem)
      rw [List.find?_cons_of_neg t (by simp [hne])]
      exact ih hn.2 hmem

/-- Replacing the row a successful id point query returns makes the query
return the replacement, provided the replacement keeps the id. -/
theorem find?_id_map_edit (l : List User) (uid : Nat) (u u' : User)
    (h : l.find? (fun x => x.id == uid) = some u) (hid : u'.id = uid) :
    (l.map (fun x => if x.id == uid then u' else x)).find? (fun x => x.id == uid) = some u' := by
  induction l with
  | nil => simp at h
  | cons a t ih =>
    by_cases ha : a.id = uid
    · have hba : (a.id == uid) = true := beq_iff_eq.mpr ha
      rw [List.map_cons, if_pos hba]
      exact List.find?_cons_of_pos _ (beq_iff_eq.mpr hid)
    · have hba : (a.id == uid) = false := beq_eq_false_iff_ne.mpr ha
      rw [List.find?_cons_of_neg t (by simp [hba])] at h
      rw [List.map_cons, if_neg (by simp [hba])]
      rw [List.find?_cons_of_neg _ (by simp [hba])]
      exact ih h

/-! Helper lemmas about the descending sort modelling `order_by(id.desc())`. -/

/-- Inserting into a descending run produces a permutation of the cons. -/
theorem insertDescById_perm (n : Notification) (l : List Notification) :
    (insertDescById n l).Perm (n :: l) := by
  induction l with
  | nil => exact List.Perm.refl _
  | cons m ms ih =>
    unfold insertDescById
    by_cases h : m.id ≤ n.id
    · rw [if_pos h]
    · rw [if_neg h]
      exact (ih.cons m).trans (List.Perm.swap n m ms)

/-- The descending sort is a permutation of its input. -/
theorem sortDescById_perm (l : List Notification) : (sortDescById l).Perm l := by
  induction l with
  | nil => exact List.Perm.refl _
  | cons m ms ih =>
    exact (insertDescById_perm m (sortDescById ms)).trans (ih.cons m)

/-- Inserting into a weakly descending run keeps it weakly descending. -/
theorem insertDescById_pairwise (n : Notification) (l : List Notification)
    (h : l.Pairwise (fun a b => b.id ≤ a.id)) :
    (insertDescById n l).Pairwise (fun a b => b.id ≤ a.id) := by
  induction l with
  | nil => simp [insertDescById]
  | cons m ms ih =>
    rw [List.pairwise_cons] at h
    unfold insertDescById
    by_cases hm : m.id ≤ n.id
    · rw [if_pos hm]
      refine List.Pairwise.cons ?_ (List.Pairwise.cons h.1 h.2)
      intro x hx
      rcases List.mem_cons.mp hx with rfl | hx
      · exact hm
      · exact le_trans (h.1 x hx) hm
    · rw [if_neg hm]
      refine List.Pairwise.cons ?_ (ih h.2)
      intro x hx
      rcases List.mem_cons.mp ((insertDescById_perm n ms).mem_iff.mp hx) with rfl | hxm
      · exact le_of_lt (Nat.not_le.mp hm)
      · exact h.1 x hxm

/-- The descending sort output is weakly descending in `id`. -/
theorem sortDescById_pairwise (l : List Notification) :
    (sortDescById l).Pairwise (fun a b => b.id ≤ a.id) := by
  induction l with
  | nil => exact List.Pairwise.nil
  | cons m ms ih => exact insertDescById_pairwise m _ ih

/-! The claim theorems. -/

/-- Claim C1: under the schema's username uniqueness, a POST to `login`
succeeds — storing `user_id`, `username` and `role` in the session and
redirecting towards the notification list — exactly when some user row
carries the submitted (trimmed) username and a stored password that is
string-equal to the raw submitted password; in every other case the same
generic failure flash is emitted, the login page is re-rendered and the
session is left exactly as it was. -/
theorem login_succeeds_iff_matching_credentials (db : DB) (sess : SessionState)
    (form : LoginForm) (hn : (db.users.map User.username).Nodup) :
    (∀ u : User, u ∈ db.users → u.username = pyStrip (form.username.getD "") →
      u.password = form.password.getD "" →
      login .POST form db sess =
        { response := .redirect "index", db := db,
          session := { user_id := some u.id, username := some u.username,
                       role := some u.role },
          flashes := [("Đăng nhập thành công.", "success")] }) ∧
    ((¬ ∃ u : User, u ∈ db.users ∧ u.username = pyStrip (form.username.getD "") ∧
        u.password = form.password.getD "") →
      login .POST form db sess =
        { response := .render "login.html", db := db, session := sess,
          flashes := [loginFailFlash] }) := by
  constructor
  · intro u hmem huser hpass
    have hfind : get_user_by_username db (pyStrip (form.username.getD "")) = some u :=
      find?_username_eq_of_nodup db.users _ hn u hmem huser
    simp only [login, hfind]
    rw [if_pos hpass.symm]
  · intro hno
    cases hfind : get_user_by_username db (pyStrip (form.username.getD "")) with
    | none => simp only [login, hfind]
    | some u =>
      have hmem : u ∈ db.users := List.mem_of_find?_eq_some hfind
      have huq : u.username = pyStrip (form.username.getD "") := by
        simpa using List.find?_some hfind
      have hpw : form.password.getD "" ≠ u.password := by
        intro he
        exact hno ⟨u, hmem, huq, he.symm⟩
      simp only [login, hfind]
      rw [if_neg hpw]

/-- Claim C1 witness: Alice logs in with her exact credentials against the
concrete database and a session is established; stale session state plays
no role. -/
theorem login_succeeds_iff_matching_credentials_witness :
    login .POST { username := some "alice", password := some "pw1" } dbMain sessNone =
      { response := .redirect "index", db := dbMain,
        session := { user_id := some aliceAdmin.id, username := some aliceAdmin.username,
                     role := some aliceAdmin.role },
        flashes := [("Đăng nhập thành công.", "success")] } :=
  (login_succeeds_iff_matching_credentials dbMain sessNone
      { username := some "alice", password := some "pw1" } (by decide)).1
    aliceAdmin (by decide) (by decide) (by decide)

/-- Claim C2: for every wrapped handler (hence every admin-only route) and
every session whose user's freshly read stored role is not `admin`, the
admin gate returns the denial outcome — a danger flash and a redirect to
the notification list — and leaves the database (both tables) and the
session untouched; the wrapped handler is never consulted. -/
theorem admin_required_denies_non_admin (f : Handler) (db : DB) (sess : SessionState)
    (uid : Nat) (u : User) (hsess : sess.user_id = some uid)
    (hu : get_user_by_id db uid = some u) (hr : u.role ≠ "admin") :
    admin_required f db sess = accessDenied db sess := by
  simp only [admin_required, hsess, hu]
  rw [if_neg hr]

/-- Claim C2 witness: Bob's non-admin session is denied on the user-list
route over the concrete database, with the database unchanged. -/
theorem admin_required_denies_non_admin_witness :
    admin_required usersList dbMain sessBob = accessDenied dbMain sessBob :=
  admin_required_denies_non_admin usersList dbMain sessBob 2 bobUser (by decide)
    (by decide) (by decide)

/-- Claim C3: the admin gate's decision reads the role freshly from the
users table and ignores the role cached in the session: with the cached
`username` and `role` fields universally quantified, a store in which the
session's user holds role `admin` lets the wrapped handler run, and a
store in which the same user's stored role is anything else produces the
denial outcome — so the same session is decided differently by the two
stores, and a role downgrade acts on the very next gated request. -/
theorem admin_required_reads_role_fresh (f : Handler) (db1 db2 : DB) (uid : Nat)
    (un ro : Option String) (u1 u2 : User)
    (h1 : get_user_by_id db1 uid = some u1) (hr1 : u1.role = "admin")
    (h2 : get_user_by_id db2 uid = some u2) (hr2 : u2.role ≠ "admin") :
    (∀ (db : DB) (un1 ro1 un2 ro2 : Option String),
      adminGateAllows db { user_id := some uid, username := un1, role := ro1 } =
      adminGateAllows db { user_id := some uid, username := un2, role := ro2 }) ∧
    adminGateAllows db1 { user_id := some uid, username := un, role := ro } = true ∧
    adminGateAllows db2 { user_id := some uid, username := un, role := ro } = false ∧
    admin_required f db1 { user_id := some uid, username := un, role := ro } =
      f db1 { user_id := some uid, username := un, role := ro } ∧
    admin_required f db2 { user_id := some uid, username := un, role := ro } =
      accessDenied db2 { user_id := some uid, username := un, role := ro } := by
  refine ⟨fun db un1 ro1 un2 ro2 => rfl, ?_, ?_, ?_, ?_⟩
  · simp [adminGateAllows, h1, hr1]
  · simp [adminGateAllows, h2, hr2]
  · simp only [admin_required, h1]
    rw [if_pos hr1]
  · simp only [admin_required, h2]
    rw [if_neg hr2]

/-- Claim C3 witness: Alice's session still caches role `admin`; against
the original store the gate passes, against the store with her role
downgraded to `user` the gate denies. -/
theorem admin_required_reads_role_fresh_witness :
    adminGateAllows dbMain sessAlice = true ∧
    adminGateAllows dbDowngraded sessAlice = false ∧
    admin_required usersList dbMain sessAlice = usersList dbMain sessAlice ∧
    admin_required usersList dbDowngraded sessAlice =
      accessDenied dbDowngraded sessAlice := by
  have h := admin_required_reads_role_fresh usersList dbMain dbDowngraded 1
    (some "alice") (some "admin") aliceAdmin { aliceAdmin with role := "user" }
    (by decide) (by decide) (by decide) (by decide)
  exact ⟨h.2.1, h.2.2.1, h.2.2.2.1, h.2.2.2.2⟩

/-- Claim C10: a session whose `user_id` has no row in the users table
(the account was deleted mid-session) is treated by the admin gate exactly
like a non-admin session: the denial flash and redirect of `accessDenied`,
never a 404 or an error, and the wrapped handler is never consulted. -/
theorem admin_required_dangling_session_denied (f : Handler) (db : DB)
    (sess : SessionState) (uid : Nat) (hsess : sess.user_id = some uid)
    (hu : get_user_by_id db uid = none) :
    admin_required f db sess = accessDenied db sess := by
  simp only [admin_required, hsess, hu]

/-- Claim C10 witness: the ghost session (user id 99, no row in the
concrete database) is denied on the user-list route. -/
theorem admin_required_dangling_session_denied_witness :
    admin_required usersList dbMain sessGhost = accessDenied dbMain sessGhost :=
  admin_required_dangling_session_denied usersList dbMain sessGhost 99 (by decide)
    (by decide)

/-- Claim C4: for every state of the notifications table with
pairwise-distinct primary keys, the list query returns exactly the stored
rows (a permutation of the table) in strictly descending order of `id`. -/
theorem notificationsQuery_sorted_desc (db : DB)
    (hn : (db.notifications.map Notification.id).Nodup) :
    (notificationsQuery db).Perm db.notifications ∧
    (notificationsQuery db).Pairwise (fun a b => b.id < a.id) := by
  have hperm : (notificationsQuery db).Perm db.notifications :=
    sortDescById_perm db.notifications
  refine ⟨hperm, ?_⟩
  have hle := sortDescById_pairwise db.notifications
  have hnd : ((notificationsQuery db).map Notification.id).Nodup :=
    (hperm.map Notification.id).nodup_iff.mpr hn
  have hne : (notificationsQuery db).Pairwise (fun a b => a.id ≠ b.id) :=
    List.pairwise_map.mp hnd
  exact (hle.and hne).imp fun h => lt_of_le_of_ne h.1 (Ne.symm h.2)

/-- Claim C4 witness: the concrete table whose rows were inserted with ids
1, 2, 3 is listed in the order [3, 2, 1]. -/
theorem notificationsQuery_sorted_desc_witness :
    (notificationsQuery dbMain).map Notification.id = [3, 2, 1] ∧
    ((notificationsQuery dbMain).Perm dbMain.notifications ∧
      (notificationsQuery dbMain).Pairwise (fun a b => b.id < a.id)) :=
  ⟨by decide, notificationsQuery_sorted_desc dbMain (by decide)⟩

/-- Claim C5: a POST to `user_edit` on an existing row stores exactly
`editedUser`: the password is left unchanged when the raw submission is
the empty string and replaced by the submission otherwise, while
`username`, `fullname`, `description` (trimmed) and `role` are overwritten
with the submitted values. -/
theorem user_edit_post_semantics (db : DB) (sess : SessionState) (uid : Nat)
    (form : UserForm) (u : User) (hu : get_user_by_id db uid = some u) :
    get_user_by_id ((user_edit .POST uid form db sess).db) uid =
      some (editedUser u form) ∧
    (editedUser u form).password =
      (if form.password.getD "" = "" then u.password else form.password.getD "") ∧
    (editedUser u form).username = pyStrip (form.username.getD "") ∧
    (editedUser u form).fullname = pyStrip (form.fullname.getD "") ∧
    (editedUser u form).description = pyStrip (form.description.getD "") ∧
    (editedUser u form).role = form.role.getD "user" := by
  have hu' : db.users.find? (fun x => x.id == uid) = some u := hu
  have hid : (editedUser u form).id = uid := by
    have hb := List.find?_some hu'
    simpa [editedUser] using hb
  refine ⟨?_, rfl, rfl, rfl, rfl, rfl⟩
  simp only [user_edit, hu']
  exact find?_id_map_edit db.users uid u (editedUser u form) hu' hid

/-- Claim C5 witness: editing Bob with an empty password field stores the
edited row and preserves his stored password. -/
theorem user_edit_post_semantics_witness :
    get_user_by_id ((user_edit .POST 2 uFormEmptyPw dbMain sessAlice).db) 2 =
      some (editedUser bobUser uFormEmptyPw) ∧
    (editedUser bobUser uFormEmptyPw).password = bobUser.password :=
  ⟨(user_edit_post_semantics dbMain sessAlice 2 uFormEmptyPw bobUser (by decide)).1,
   by decide⟩

/-- Claim C6: a POST to `user_add` whose trimmed username already names an
existing row changes nothing — the whole result carries the unchanged
database — and re-renders the form with an error flash; when no row
carries that username, the parsed row is appended to the users table and
the request redirects to the user list. -/
theorem user_add_username_precheck (db : DB) (sess : SessionState) (form : UserForm) :
    ((∃ u : User, u ∈ db.users ∧ u.username = pyStrip (form.username.getD "")) →
      user_add .POST form db sess =
        { response := .render "user_form.html", db := db, session := sess,
          flashes := [("Username đã tồn tại.", "danger")] }) ∧
    ((¬ ∃ u : User, u ∈ db.users ∧ u.username = pyStrip (form.username.getD "")) →
      (user_add .POST form db sess).db.users =
        db.users ++
          [{ id := freshUserId db, username := pyStrip (form.username.getD ""),
             password := form.password.getD "",
             fullname := pyStrip (form.fullname.getD ""),
             description := pyStrip (form.description.getD ""),
             role := form.role.getD "user" }] ∧
      (user_add .POST form db sess).response = .redirect "users") := by
  constructor
  · rintro ⟨u, hmem, huser⟩
    have hsome : (db.users.find? (fun w => w.username == pyStrip (form.username.getD ""))).isSome := by
      rw [List.find?_isSome]
      exact ⟨u, hmem, by simp [huser]⟩
    cases hfind : db.users.find? (fun w => w.username == pyStrip (form.username.getD "")) with
    | none => rw [hfind] at hsome; simp at hsome
    | some w => simp [user_add, hfind]
  · intro hno
    have hfind : db.users.find? (fun w => w.username == pyStrip (form.username.getD "")) = none := by
      rw [List.find?_eq_none]
      intro x hx hbeq
      exact hno ⟨x, hx, by simpa using hbeq⟩
    simp [user_add, hfind]

/-- Claim C6 witness: adding the already-present username `alice` leaves
the users table unchanged and re-renders the form with the error flash. -/
theorem user_add_username_precheck_witness :
    user_add .POST
        { username := some "alice", password := some "zz", fullname := none,
          description := none, role := none } dbMain sessAlice =
      { response := .render "user_form.html", db := dbMain, session := sessAlice,
        flashes := [("Username đã tồn tại.", "danger")] } :=
  (user_add_username_precheck dbMain sessAlice
      { username := some "alice", password := some "zz", fullname := none,
        description := none, role := none }).1
    ⟨aliceAdmin, by decide, by decide⟩

/-- Claim C7: `user_delete` is fully characterised by three cases: a
target equal to the session's own `user_id` is refused with an error flash
and a redirect to the user list, with the database untouched; a different
target with no matching row is a 404 with the database untouched; only a
different target with a matching row deletes, and it removes exactly the
rows carrying the target id. -/
theorem user_delete_self_guard (db : DB) (sess : SessionState) (uid : Nat) :
    (sess.user_id = some uid →
      user_delete uid db sess =
        { response := .redirect "users", db := db, session := sess,
          flashes := [("Bạn không thể xóa chính mình.", "danger")] }) ∧
    (sess.user_id ≠ some uid →
      db.users.find? (fun x => x.id == uid) = none →
      user_delete uid db sess = notFoundResult db sess) ∧
    (∀ u : User, sess.user_id ≠ some uid →
      db.users.find? (fun x => x.id == uid) = some u →
      user_delete uid db sess =
        { response := .redirect "users",
          db := { db with users := db.users.filter (fun x => !(x.id == uid)) },
          session := sess,
          flashes := [("Người dùng đã bị xóa.", "warning")] }) := by
  refine ⟨?_, ?_, ?_⟩
  · intro h
    simp [user_delete, h]
  · intro h hfind
    simp [user_delete, h, hfind]
  · intro u h hfind
    simp [user_delete, h, hfind]

/-- Claim C7 witness: Alice's session asking to delete user id 1 (her own)
is refused with the error flash and an unchanged database. -/
theorem user_delete_self_guard_witness :
    user_delete 1 dbMain sessAlice =
      { response := .redirect "users", db := dbMain, session := sessAlice,
        flashes := [("Bạn không thể xóa chính mình.", "danger")] } :=
  (user_delete_self_guard dbMain sessAlice 1).1 rfl

/-- Claim C9: `request.form.get('role','user')` makes an absent role field
store the literal `"user"`: a POST to `user_edit` without a role field
stores role `"user"` on the target row (silently demoting an admin), and a
conflict-free POST to `user_add` without a role field inserts a row with
role `"user"`. -/
theorem absent_role_defaults_to_user (db : DB) (sess : SessionState) (uid : Nat)
    (form : UserForm) (u : User) (hrole : form.role = none)
    (hu : get_user_by_id db uid = some u) :
    (editedUser u form).role = "user" ∧
    get_user_by_id ((user_edit .POST uid form db sess).db) uid =
      some (editedUser u form) ∧
    (db.users.find? (fun w => w.username == pyStrip (form.username.getD "")) = none →
      (user_add .POST form db sess).db.users =
        db.users ++
          [{ id := freshUserId db, username := pyStrip (form.username.getD ""),
             password := form.password.getD "",
             fullname := pyStrip (form.fullname.getD ""),
             description := pyStrip (form.description.getD ""),
             role := "user" }]) := by
  have hu' : db.users.find? (fun x => x.id == uid) = some u := hu
  have hid : (editedUser u form).id = uid := by
    have hb := List.find?_some hu'
    simpa [editedUser] using hb
  refine ⟨by simp [editedUser, hrole], ?_, ?_⟩
  · simp only [user_edit, hu']
    exact find?_id_map_edit db.users uid u (editedUser u form) hu' hid
  · intro hfind
    simp [user_add, hfind, hrole]

/-- Claim C9 witness: editing the admin account (id 1) with a form whose
role field is absent demotes the stored role to `user`. -/
theorem absent_role_defaults_to_user_witness :
    (editedUser aliceAdmin uFormNoRole).role = "user" ∧
    aliceAdmin.role = "admin" ∧
    get_user_by_id ((user_edit .POST 1 uFormNoRole dbMain sessAlice).db) 1 =
      some (editedUser aliceAdmin uFormNoRole) := by
  have h := absent_role_defaults_to_user dbMain sessAlice 1 uFormNoRole aliceAdmin
    rfl (by decide)
  exact ⟨h.1, by decide, h.2.1⟩

/-- Claim C8: under a session that passes the admin gate, a target id with
no matching row makes every detail, edit and delete route — for
notifications and users, GET and POST alike — answer the terminal 404
result with the database untouched. -/
theorem missing_id_not_found (db : DB) (sess : SessionState) (uid tid : Nat)
    (adminUser : User) (m : Method) (nform : NotificationForm) (uform : UserForm)
    (hsess : sess.user_id = some uid)
    (hadm : get_user_by_id db uid = some adminUser) (hrole : adminUser.role = "admin") :
    (db.notifications.find? (fun n => n.id == tid) = none →
      notification_detail_route tid db sess = notFoundResult db sess ∧
      notification_edit_route m tid nform db sess = notFoundResult db sess ∧
      notification_delete_route tid db sess = notFoundResult db sess) ∧
    (db.users.find? (fun w => w.id == tid) = none →
      user_detail_route tid db sess = notFoundResult db sess ∧
      user_edit_route m tid uform db sess = notFoundResult db sess ∧
      user_delete_route tid db sess = notFoundResult db sess) := by
  have hgateA : ∀ f : Handler, admin_required f db sess = f db sess := by
    intro f
    simp only [admin_required, hsess, hadm]
    rw [if_pos hrole]
  have hgateL : ∀ f : Handler, login_required f db sess = f db sess := by
    intro f
    simp only [login_required, hsess]
  constructor
  · intro habs
    refine ⟨?_, ?_, ?_⟩
    · show login_required (notification_detail tid) db sess = notFoundResult db sess
      rw [hgateL]
      simp [notification_detail, habs]
    · show admin_required (notification_edit m tid nform) db sess = notFoundResult db sess
      rw [hgateA]
      simp [notification_edit, habs]
    · show admin_required (notification_delete tid) db sess = notFoundResult db sess
      rw [hgateA]
      simp [notification_delete, habs]
  · intro habs
    have hneq : sess.user_id ≠ some tid := by
      rw [hsess]
      intro he
      have hmem : adminUser ∈ db.users := List.mem_of_find?_eq_some hadm
      have hid : adminUser.id = uid := by simpa using List.find?_some hadm
      have hnone := List.find?_eq_none.mp habs adminUser hmem
      apply hnone
      simp [hid, Option.some.inj he]
    refine ⟨?_, ?_, ?_⟩
    · show login_required (user_detail tid) db sess = notFoundResult db sess
      rw [hgateL]
      simp [user_detail, habs]
    · show admin_required (user_edit m tid uform) db sess = notFoundResult db sess
      rw [hgateA]
      simp [user_edit, habs]
    · show admin_required (user_delete tid) db sess = notFoundResult db sess
      rw [hgateA]
      simp [user_delete, hneq, habs]

/-- Claim C8 witness: under Alice's admin session, target id 99 — absent
from both tables of the concrete database — yields the 404 result on all
six routes (POST shown for the edit routes). -/
theorem missing_id_not_found_witness :
    notification_detail_route 99 dbMain sessAlice = notFoundResult dbMain sessAlice ∧
    notification_edit_route .POST 99 nFormX dbMain sessAlice =
      notFoundResult dbMain sessAlice ∧
    notification_delete_route 99 dbMain sessAlice = notFoundResult dbMain sessAlice ∧
    user_detail_route 99 dbMain sessAlice = notFoundResult dbMain sessAlice ∧
    user_edit_route .POST 99 uFormNoRole dbMain sessAlice =
      notFoundResult dbMain sessAlice ∧
    user_delete_route 99 dbMain sessAlice = notFoundResult dbMain sessAlice := by
  have h := missing_id_not_found dbMain sessAlice 1 99 aliceAdmin .POST nFormX
    uFormNoRole rfl (by decide) (by decide)
  have h1 := h.1 (by decide)
  have h2 := h.2 (by decide)
  exact ⟨h1.1, h1.2.1, h1.2.2, h2.1, h2.2.1, h2.2.2⟩

end Notifix
